import Mathlib

/-!
Shallow embedding of `cppcheck_junit.py`: a converter from Cppcheck XML
version 2 output to JUnit XML.  The Python pipeline is

  parse_cppcheck : file -> Dict[str, List[CppcheckError]]
  generate_test_suite / generate_test_suite_bitbucket / generate_single_success_test_suite
    : dict -> ElementTree
  main : drives the above, returns an exit status.

Python values that may be `None` (XML attribute lookups via `Element.get`,
dict keys coming from them) are modelled as `Option String`.  Python
exceptions are modelled with `Except PyExc`.  Environment effects
(`datetime.now`, `gethostname`, `os.path.relpath`) are modelled by an `Env`
record whose clock and hostname oracles are indexed by the call count, so
that "read once" versus "read per suite" is observable.
-/

/-- Python exceptions relevant to this program. -/
inductive PyExc where
  | valueError (msg : String)
  | typeError (msg : String)
  | ioError (msg : String)
  | parseError (msg : String)
deriving Repr, DecidableEq

/-- A `<location file=... line=...>` element; `Element.get` yields `None`
for a missing attribute, hence `Option String`. -/
structure LocationElem where
  file : Option String
  line : Option String
deriving Repr, DecidableEq

/-- An `<error ...>` child of the `<errors>` container, with its direct
attributes and optional nested location element. -/
structure ErrorElem where
  location : Option LocationElem
  msg : Option String
  severity : Option String
  id : Option String
  verbose : Option String
deriving Repr, DecidableEq

/-- The root element of a Cppcheck document: its `version` attribute and the
result of `root.find("errors")` (`none` when the container is absent). -/
structure CppcheckDoc where
  version : Option String
  errors : Option (List ErrorElem)
deriving Repr, DecidableEq

/-- The input file handed to `parse_cppcheck`: unreadable (IOError),
not well-formed XML (ParseError), or a parsed element tree. -/
inductive InputFile where
  | missing
  | malformed
  | doc (root : CppcheckDoc)
deriving Repr, DecidableEq

/-- The `CppcheckError` record class of the source. -/
structure CppcheckError where
  file : Option String
  line : Int
  message : Option String
  severity : Option String
  error_id : Option String
  verbose : Option String
deriving Repr, DecidableEq

/-- Python truthiness of an optional string: `None` and `""` are falsy. -/
def pyTruthy : Option String → Bool
  | none => false
  | some s => !s.isEmpty

/-- How python renders a possibly-None string inside an f-string:
`str(None) = "None"`. -/
def optStr : Option String → String
  | none => "None"
  | some s => s

/-- Python whitespace stripped by `int(str)`. -/
def pyWs (c : Char) : Bool := c = ' ' || c = '\t' || c = '\n' || c = '\r'

def isDigitChar (c : Char) : Bool := 48 ≤ c.toNat && c.toNat ≤ 57

def digitsVal (l : List Char) : Nat :=
  l.foldl (fun acc c => acc * 10 + (c.toNat - 48)) 0

/-- Model of `int(s)` on a string: optional surrounding whitespace, optional sign,
decimal digits; `none` models the `ValueError` raised otherwise.
(Digit-group underscores accepted by Python 3.6+ are not modelled; no input
relevant here contains them.) -/
def pyIntChars (l : List Char) : Option Int :=
  let core := ((l.dropWhile pyWs).reverse.dropWhile pyWs).reverse
  match core with
  | [] => none
  | c :: rest =>
    if c = '-' then
      if !rest.isEmpty && rest.all isDigitChar then some (-(digitsVal rest : Int)) else none
    else if c = '+' then
      if !rest.isEmpty && rest.all isDigitChar then some ((digitsVal rest : Int)) else none
    else
      if (c :: rest).all isDigitChar then some ((digitsVal (c :: rest) : Int)) else none

def pyInt (s : String) : Option Int := pyIntChars s.data

def unsupportedVersionMsg : String :=
  "Parser only supports Cppcheck XML version 2.  Use --xml-version=2."

/-- Message of the TypeError raised by `int(None)` when a location element
has no `line` attribute. -/
def intNoneTypeMsg : String :=
  "int() argument must be a string, a bytes-like object or a real number, not NoneType"

/-- Message of the TypeError raised by iterating `None` when the document
has no top-level `errors` container. -/
def iterNoneMsg : String := "NoneType object is not iterable"

/-- Message of the ValueError raised by `int` on a non-numeric string. -/
def intLiteralMsg (s : String) : String :=
  "invalid literal for int() with base 10: " ++ s

/-- Message of the TypeError raised by `os.path.basename(None)`. -/
def basenameNoneMsg : String :=
  "expected str, bytes or os.PathLike object, not NoneType"

/-- The loop body of `parse_cppcheck` for one error element: extract file
and line from the location child (file = "" and line = 0 when absent), and
the direct attributes. `int(location.get("line"))` raises TypeError when
the attribute is missing and ValueError when it is non-numeric. -/
def parseErrorElem (e : ErrorElem) : Except PyExc CppcheckError :=
  match e.location with
  | some loc =>
    match loc.line with
    | none => .error (.typeError intNoneTypeMsg)
    | some s =>
      match pyInt s with
      | none => .error (.valueError (intLiteralMsg s))
      | some n => .ok ⟨loc.file, n, e.msg, e.severity, e.id, e.verbose⟩
  | none => .ok ⟨some "", 0, e.msg, e.severity, e.id, e.verbose⟩

/-- Model of `collections.defaultdict(list)` keyed by `error.file`, with python dict
insertion-order iteration: an association list in first-seen key order. -/
abbrev FindingsMap := List (Option String × List CppcheckError)

/-- Model of `errors[error.file].append(error)` on the insertion-ordered dict. -/
def groupInsert (m : FindingsMap) (e : CppcheckError) : FindingsMap :=
  match m with
  | [] => [(e.file, [e])]
  | (k, es) :: rest =>
    if k = e.file then (k, es ++ [e]) :: rest else (k, es) :: groupInsert rest e

/-- The `for error_element in error_root` loop of `parse_cppcheck`. -/
def processErrors (m : FindingsMap) : List ErrorElem → Except PyExc FindingsMap
  | [] => .ok m
  | e :: rest =>
    match parseErrorElem e with
    | .error exc => .error exc
    | .ok err => processErrors (groupInsert m err) rest

/-- Model of `parse_cppcheck`: reject a missing or non-2 `version` attribute with
ValueError, then walk the `errors` container grouping findings by file. -/
def parse_cppcheck (input : InputFile) : Except PyExc FindingsMap :=
  match input with
  | .missing => .error (.ioError "No such file or directory")
  | .malformed => .error (.parseError "syntax error")
  | .doc root =>
    match root.version with
    | none => .error (.valueError unsupportedVersionMsg)
    | some v =>
      match pyInt v with
      | none => .error (.valueError (intLiteralMsg v))
      | some n =>
        if n ≠ 2 then .error (.valueError unsupportedVersionMsg)
        else
          match root.errors with
          | none => .error (.typeError iterNoneMsg)
          | some elems => processErrors [] elems

/-- An ElementTree element of the output document: tag, attributes in
insertion order (values `Option String` since python may store `None`),
and child elements. -/
inductive XTree where
  | elem (tag : String) (attrs : List (String × Option String)) (children : List XTree)

def XTree.tag : XTree → String
  | .elem t _ _ => t

def XTree.attrs : XTree → List (String × Option String)
  | .elem _ a _ => a

def XTree.children : XTree → List XTree
  | .elem _ _ c => c

/-- Look up an attribute: `some v` when present with (possibly None) value
`v`, `none` when the element has no such attribute. -/
def XTree.attr (t : XTree) (k : String) : Option (Option String) :=
  (t.attrs.find? (fun p => p.1 == k)).map Prod.snd

/-- Environment effects.  `clock n` / `host n` are the results of the
n-th `datetime.isoformat(datetime.now())` / `gethostname()` call of one
builder invocation (0-based); `relpath` is `os.path.relpath` against the
current working directory. -/
structure Env where
  relpath : String → String
  clock : Nat → String
  host : Nat → String

/-- Model of `os.path.basename` on a (posix) path string. -/
def basenameStr (s : String) : String :=
  ((s.data.reverse.takeWhile (fun c => c ≠ '/')).reverse).asString

/-- One nested error detail of the standard variant: blank `type`, and a
`message` composed as "<line>: (<severity>) <message>". -/
def standardErrorElem (env : Env) (e : CppcheckError) : XTree :=
  .elem "error"
    [("type", some ""),
     ("file", some (if pyTruthy e.file then env.relpath (optStr e.file) else "")),
     ("line", some (toString e.line)),
     ("message", some (toString e.line ++ ": (" ++ optStr e.severity ++ ") " ++ optStr e.message))]
    []

/-- One testcase of the standard variant: one per file key, named by the
relativized path, or "Cppcheck error" for a falsy key. -/
def standardCase (env : Env) (p : Option String × List CppcheckError) : XTree :=
  .elem "testcase"
    [("name", some (if pyTruthy p.1 then env.relpath (optStr p.1) else "Cppcheck error")),
     ("classname", some "Cppcheck error"),
     ("time", some "1")]
    (p.2.map (standardErrorElem env))

/-- Model of `generate_test_suite`: a single testsuite whose `tests` and `errors`
attributes are `str(len(errors))` on the dict, i.e. the number of file
keys.  `datetime.now()` and `gethostname()` are each called once. -/
def generate_test_suite (env : Env) (errors : FindingsMap) : XTree :=
  .elem "testsuite"
    [("name", some "Cppcheck errors"),
     ("timestamp", some (env.clock 0)),
     ("hostname", some (env.host 0)),
     ("tests", some (toString errors.length)),
     ("failures", some "0"),
     ("errors", some (toString errors.length)),
     ("time", some "1")]
    (errors.map (standardCase env))

/-- One nested error detail of the Bitbucket variant: `type` is the raw
severity value and `message` the raw message value (either may be None). -/
def bitbucketErrorElem (env : Env) (e : CppcheckError) : XTree :=
  .elem "error"
    [("type", e.severity),
     ("file", some (if pyTruthy e.file then env.relpath (optStr e.file) else "")),
     ("line", some (toString e.line)),
     ("message", e.message)]
    []

/-- One testcase of the Bitbucket variant: one per finding, named
"<basename of file>:<line>", carrying exactly one error detail. -/
def bitbucketCase (env : Env) (file_name : Option String) (e : CppcheckError) : XTree :=
  .elem "testcase"
    [("classname", some ("(" ++ optStr e.severity ++ ")")),
     ("name", some (basenameStr (optStr file_name) ++ ":" ++ toString e.line)),
     ("line", some (toString e.line))]
    [bitbucketErrorElem env e]

/-- One testsuite of the Bitbucket variant for the i-th file key: the
shared timestamp `t` computed before the loop, a per-suite `gethostname()`
call (call index `i`), and per-file counts. -/
def bitbucketSuiteBody (env : Env) (t : String) (i : Nat) (k : Option String)
    (es : List CppcheckError) : XTree :=
  .elem "testsuite"
    [("name", some (if pyTruthy k then env.relpath (optStr k) else "Cppcheck error")),
     ("timestamp", some t),
     ("hostname", some (env.host i)),
     ("tests", some (toString es.length)),
     ("failures", some "0"),
     ("errors", some (toString es.length)),
     ("time", some "1")]
    (es.map (bitbucketCase env k))

/-- One iteration of the Bitbucket suite loop.  When the dict key is None
(a location element without a `file` attribute) and the suite has at least
one finding, `os.path.basename(None)` in the first testcase raises
TypeError. -/
def bitbucketSuite (env : Env) (t : String) (i : Nat) (k : Option String)
    (es : List CppcheckError) : Except PyExc XTree :=
  match k, es with
  | none, _ :: _ => .error (.typeError basenameNoneMsg)
  | _, _ => .ok (bitbucketSuiteBody env t i k es)

/-- The `for file_name, errors in errors.items()` loop of the Bitbucket
variant, carrying the `gethostname()` call counter. -/
def bitbucketSuites (env : Env) (t : String) : Nat → FindingsMap → Except PyExc (List XTree)
  | _, [] => .ok []
  | i, (k, es) :: rest =>
    match bitbucketSuite env t i k es with
    | .error exc => .error exc
    | .ok s => (bitbucketSuites env t (i + 1) rest).map (fun l => s :: l)

/-- Model of `generate_test_suite_bitbucket`: `current_time` is computed once,
before the loop; each suite re-resolves the hostname. -/
def generate_test_suite_bitbucket (env : Env) (errors : FindingsMap) :
    Except PyExc XTree :=
  (bitbucketSuites env (env.clock 0) 0 errors).map (fun l => .elem "testsuites" [] l)

/-- Model of `generate_single_success_test_suite`. -/
def generate_single_success_test_suite (env : Env) : XTree :=
  .elem "testsuite"
    [("name", some "Cppcheck errors"),
     ("timestamp", some (env.clock 0)),
     ("hostname", some (env.host 0)),
     ("tests", some "1"),
     ("failures", some "0"),
     ("errors", some "0"),
     ("time", some "1")]
    [.elem "testcase"
      [("name", some "Cppcheck success"),
       ("classname", some "Cppcheck success"),
       ("time", some "1")]
      []]

/-- Message of the TypeError raised by `ElementTree.write` when an
attribute value is `None`. -/
def serializeNoneMsg : String := "cannot serialize None (type NoneType)"

mutual

/-- Whether the element or any descendant stores a `None` attribute value;
`ElementTree.write` raises TypeError on the first one it meets. -/
def treeHasNoneAttr : XTree → Bool
  | .elem _ a c => a.any (fun p => p.2.isNone) || forestHasNoneAttr c

/-- Whether any element of the list of children has a `None` attribute
value somewhere beneath it. -/
def forestHasNoneAttr : List XTree → Bool
  | [] => false
  | t :: ts => treeHasNoneAttr t || forestHasNoneAttr ts

end

/-- Model of `tree.write(output_file, ...)`: serialization raises TypeError
when the tree stores a `None` attribute value (the Bitbucket variant passes
`error.severity` and `error.message` through raw); otherwise the tree is
written.  The output path is assumed writable. -/
def writeTree (t : XTree) : Except PyExc XTree :=
  match treeHasNoneAttr t with
  | true => .error (.typeError serializeNoneMsg)
  | false => .ok t

def ExitStatus.success : Int := 0

def ExitStatus.failure : Int := 1

/-- The CLI arguments after argparse: the positional `error_exitcode` is
`None` when not supplied (`nargs="?"` with no default). -/
structure Args where
  input_file : InputFile
  error_exitcode : Option Int
  bitbucket : Bool

/-- Effect of `sys.exit` on the value returned by `main`: `sys.exit(None)` exits
with status 0, `sys.exit(n)` with status n. -/
def sysExitCode : Option Int → Int
  | none => 0
  | some n => n

/-- Which exceptions `main` catches: ValueError, IOError and ElementTree.ParseError (printing
a message and returning the failure status); TypeError is unhandled and
propagates. -/
def handledExc : PyExc → Bool
  | .valueError _ => true
  | .ioError _ => true
  | .parseError _ => true
  | .typeError _ => false

namespace Cppcheck

/-- Model of `main`: parse; on a handled parse error return the failure status with
no output written; otherwise build the chosen variant (or the single
success suite when the dict is empty), write it, and return the exit
status.  The result pairs the exit status with the tree written to the
output file (`none` when nothing was written); an unhandled exception,
from the build or from serialization, escapes as `.error` (the `try` in
the source wraps only the parse). -/
def main (env : Env) (args : Args) : Except PyExc (Int × Option XTree) :=
  match parse_cppcheck args.input_file with
  | .error e => if handledExc e then .ok (ExitStatus.failure, none) else .error e
  | .ok errors =>
    if errors.length > 0 then
      match (if args.bitbucket then generate_test_suite_bitbucket env errors
             else .ok (generate_test_suite env errors)) with
      | .error e => .error e
      | .ok tree =>
        match writeTree tree with
        | .error e => .error e
        | .ok written => .ok (sysExitCode args.error_exitcode, some written)
    else
      match writeTree (generate_single_success_test_suite env) with
      | .error e => .error e
      | .ok written => .ok (ExitStatus.success, some written)

end Cppcheck

/-- Total number of findings across all file keys. -/
def totalFindings (m : FindingsMap) : Nat := (m.map (fun p => p.2.length)).sum

/-- A concrete environment for witnesses: identity relativization and
injective clock and hostname oracles (distinct reads give distinct
values). -/
def env0 : Env := ⟨fun s => s, fun n => toString n, fun n => toString n⟩

/-- The value `bitbucketSuites` computes when no suite raises: the list of
suite elements, the i-th one made with hostname call index i. -/
def bitbucketSuitesPure (env : Env) (t : String) : Nat → FindingsMap → List XTree
  | _, [] => []
  | i, (k, es) :: rest =>
    bitbucketSuiteBody env t i k es :: bitbucketSuitesPure env t (i + 1) rest

/-- A concrete finding on file "a.cpp", line 42, severity warning. -/
def errA : CppcheckError := ⟨some "a.cpp", 42, some "X", some "warning", some "foo", none⟩

/-- A second concrete finding on the same file. -/
def errA2 : CppcheckError := ⟨some "a.cpp", 43, some "Y", some "error", some "bar", none⟩

/-- A concrete finding on a second file "b.cpp". -/
def errB : CppcheckError := ⟨some "b.cpp", 7, some "Z", some "style", some "baz", none⟩

/-- One file key holding two findings: K = 1 distinct file, N = 2 findings. -/
def mC1 : FindingsMap := [(some "a.cpp", [errA, errA2])]

/-- Two file keys with one finding each. -/
def mC2 : FindingsMap := [(some "a.cpp", [errA]), (some "b.cpp", [errB])]

/-- A single finding under its file key. -/
def mC8 : FindingsMap := [(some "a.cpp", [errA])]

/-- Two file keys, three findings in total. -/
def mW7 : FindingsMap := [(some "a.cpp", [errA, errA2]), (some "b.cpp", [errB])]

/-- A version-2 document with one finding whose location has file and line. -/
def doc4 : CppcheckDoc :=
  ⟨some "2", some [⟨some ⟨some "a.cpp", some "42"⟩, some "X", some "warning", some "foo", none⟩]⟩

/-- A version-2 document with an empty errors container. -/
def doc5 : CppcheckDoc := ⟨some "2", some []⟩

/-- A version-2 document with one finding that has a location (file and
line) but no `severity` attribute: it parses fine, but the Bitbucket
builder stores `type=None` and serialization raises TypeError. -/
def doc4x : CppcheckDoc :=
  ⟨some "2", some [⟨some ⟨some "a.cpp", some "42"⟩, some "X", none, some "foo", none⟩]⟩

/-- The findings mapping parsed from `doc4x`. -/
def mC4x : FindingsMap := [(some "a.cpp", [⟨some "a.cpp", 42, some "X", none, some "foo", none⟩])]

/-- A version-2 document with one finding whose location has a `line` but
no `file` attribute: it parses fine under the key None, but the Bitbucket
builder's `os.path.basename(None)` raises TypeError. -/
def doc4y : CppcheckDoc :=
  ⟨some "2", some [⟨some ⟨none, some "3"⟩, some "X", some "warning", some "foo", none⟩]⟩

/-- The findings mapping parsed from `doc4y`. -/
def mC4y : FindingsMap := [(none, [⟨none, 3, some "X", some "warning", some "foo", none⟩])]

/-- A version-2 document with one finding whose location element lacks a
`line` attribute. -/
def doc10a : CppcheckDoc :=
  ⟨some "2", some [⟨some ⟨some "a.cpp", none⟩, some "m", some "warning", some "id1", none⟩]⟩

/-- A version-2 document lacking the top-level `errors` container. -/
def doc10b : CppcheckDoc := ⟨some "2", none⟩

/-! ### Helper lemmas -/

theorem bitbucketSuite_some (env : Env) (t : String) (i : Nat) (s : String)
    (es : List CppcheckError) :
    bitbucketSuite env t i (some s) es = .ok (bitbucketSuiteBody env t i (some s) es) := by
  cases es <;> rfl

theorem bitbucketSuites_eq_pure (env : Env) (t : String) :
    ∀ (m : FindingsMap) (i : Nat), (∀ p ∈ m, p.1 ≠ none) →
      bitbucketSuites env t i m = .ok (bitbucketSuitesPure env t i m) := by
  intro m
  induction m with
  | nil => intro i _; rfl
  | cons p rest ih =>
    intro i hk
    obtain ⟨k, es⟩ := p
    obtain ⟨s, rfl⟩ : ∃ s, k = some s :=
      Option.ne_none_iff_exists'.mp (hk (k, es) (List.mem_cons_self _ _))
    rw [bitbucketSuites, bitbucketSuite_some,
        ih (i + 1) (fun q hq => hk q (List.mem_cons_of_mem _ hq))]
    rfl

theorem suiteBody_timestamp (env : Env) (t : String) (i : Nat) (k : Option String)
    (es : List CppcheckError) :
    (bitbucketSuiteBody env t i k es).attr "timestamp" = some (some t) := rfl

theorem suiteBody_hostname (env : Env) (t : String) (i : Nat) (k : Option String)
    (es : List CppcheckError) :
    (bitbucketSuiteBody env t i k es).attr "hostname" = some (some (env.host i)) := rfl

theorem suiteBody_tests (env : Env) (t : String) (i : Nat) (k : Option String)
    (es : List CppcheckError) :
    (bitbucketSuiteBody env t i k es).attr "tests" = some (some (toString es.length)) := rfl

theorem suiteBody_errors (env : Env) (t : String) (i : Nat) (k : Option String)
    (es : List CppcheckError) :
    (bitbucketSuiteBody env t i k es).attr "errors" = some (some (toString es.length)) := rfl

theorem pure_length (env : Env) (t : String) :
    ∀ (m : FindingsMap) (i : Nat), (bitbucketSuitesPure env t i m).length = m.length := by
  intro m
  induction m with
  | nil => intro i; rfl
  | cons p rest ih =>
    intro i
    obtain ⟨k, es⟩ := p
    simp [bitbucketSuitesPure, ih]

theorem pure_timestamps (env : Env) (t : String) :
    ∀ (m : FindingsMap) (i : Nat),
      (bitbucketSuitesPure env t i m).map (fun c => c.attr "timestamp") =
        List.replicate m.length (some (some t)) := by
  intro m
  induction m with
  | nil => intro i; rfl
  | cons p rest ih =>
    intro i
    obtain ⟨k, es⟩ := p
    simp [bitbucketSuitesPure, List.replicate, ih, suiteBody_timestamp]

theorem pure_hostnames (env : Env) (t : String) :
    ∀ (m : FindingsMap) (i : Nat),
      (bitbucketSuitesPure env t i m).map (fun c => c.attr "hostname") =
        (List.range' i m.length).map (fun j => some (some (env.host j))) := by
  intro m
  induction m with
  | nil => intro i; rfl
  | cons p rest ih =>
    intro i
    obtain ⟨k, es⟩ := p
    simp [bitbucketSuitesPure, List.range', ih, suiteBody_hostname]

theorem pure_tests (env : Env) (t : String) :
    ∀ (m : FindingsMap) (i : Nat),
      (bitbucketSuitesPure env t i m).map (fun c => c.attr "tests") =
        m.map (fun p => some (some (toString p.2.length))) := by
  intro m
  induction m with
  | nil => intro i; rfl
  | cons p rest ih =>
    intro i
    obtain ⟨k, es⟩ := p
    simp [bitbucketSuitesPure, ih, suiteBody_tests]

theorem pure_errors (env : Env) (t : String) :
    ∀ (m : FindingsMap) (i : Nat),
      (bitbucketSuitesPure env t i m).map (fun c => c.attr "errors") =
        m.map (fun p => some (some (toString p.2.length))) := by
  intro m
  induction m with
  | nil => intro i; rfl
  | cons p rest ih =>
    intro i
    obtain ⟨k, es⟩ := p
    simp [bitbucketSuitesPure, ih, suiteBody_errors]

theorem suiteBody_children (env : Env) (t : String) (i : Nat) (k : Option String)
    (es : List CppcheckError) :
    (bitbucketSuiteBody env t i k es).children = es.map (bitbucketCase env k) := rfl

theorem bitbucketCase_children (env : Env) (k : Option String) (e : CppcheckError) :
    (bitbucketCase env k e).children = [bitbucketErrorElem env e] := rfl

theorem pure_case_counts (env : Env) (t : String) :
    ∀ (m : FindingsMap) (i : Nat),
      (bitbucketSuitesPure env t i m).map (fun c => c.children.length) =
        m.map (fun p => p.2.length) := by
  intro m
  induction m with
  | nil => intro i; rfl
  | cons p rest ih =>
    intro i
    obtain ⟨k, es⟩ := p
    simp only [bitbucketSuitesPure, List.map_cons, suiteBody_children, List.length_map, ih]

theorem pure_detail_counts (env : Env) (t : String) :
    ∀ (m : FindingsMap) (i : Nat),
      (bitbucketSuitesPure env t i m).map (fun c => c.children.map (fun tc => tc.children.length)) =
        m.map (fun p => List.replicate p.2.length 1) := by
  intro m
  induction m with
  | nil => intro i; rfl
  | cons p rest ih =>
    intro i
    obtain ⟨k, es⟩ := p
    simp only [bitbucketSuitesPure, List.map_cons, suiteBody_children, List.map_map, ih]
    have : (fun tc => tc.children.length) ∘ bitbucketCase env k = fun _ => 1 := by
      funext e
      simp [Function.comp, bitbucketCase_children]
    rw [this, List.map_const']

theorem stdErrorElem_no_none (env : Env) (e : CppcheckError) :
    treeHasNoneAttr (standardErrorElem env e) = false := rfl

theorem stdForest_no_none (env : Env) :
    ∀ es : List CppcheckError, forestHasNoneAttr (es.map (standardErrorElem env)) = false := by
  intro es
  induction es with
  | nil => rfl
  | cons e rest ih => simp [forestHasNoneAttr, stdErrorElem_no_none, ih]

theorem stdCase_no_none (env : Env) (p : Option String × List CppcheckError) :
    treeHasNoneAttr (standardCase env p) = false := by
  show forestHasNoneAttr (p.2.map (standardErrorElem env)) = false
  exact stdForest_no_none env p.2

theorem std_suite_no_none (env : Env) (m : FindingsMap) :
    treeHasNoneAttr (generate_test_suite env m) = false := by
  show forestHasNoneAttr (m.map (standardCase env)) = false
  induction m with
  | nil => rfl
  | cons p rest ih => simp [forestHasNoneAttr, stdCase_no_none, ih]

theorem bbErrorElem_no_none (env : Env) (e : CppcheckError) (h1 : e.severity ≠ none)
    (h2 : e.message ≠ none) : treeHasNoneAttr (bitbucketErrorElem env e) = false := by
  obtain ⟨s, hs⟩ := Option.ne_none_iff_exists'.mp h1
  obtain ⟨ms, hm⟩ := Option.ne_none_iff_exists'.mp h2
  simp only [bitbucketErrorElem]
  rw [hs, hm]
  rfl

theorem bbCase_no_none (env : Env) (k : Option String) (e : CppcheckError)
    (h1 : e.severity ≠ none) (h2 : e.message ≠ none) :
    treeHasNoneAttr (bitbucketCase env k e) = false := by
  show (treeHasNoneAttr (bitbucketErrorElem env e) || false) = false
  rw [bbErrorElem_no_none env e h1 h2]
  rfl

theorem bbCaseForest_no_none (env : Env) (k : Option String) :
    ∀ es : List CppcheckError, (∀ e ∈ es, e.severity ≠ none ∧ e.message ≠ none) →
      forestHasNoneAttr (es.map (bitbucketCase env k)) = false := by
  intro es
  induction es with
  | nil => intro _; rfl
  | cons e rest ih =>
    intro h
    have he := h e (List.mem_cons_self _ _)
    simp [forestHasNoneAttr, bbCase_no_none env k e he.1 he.2,
          ih (fun x hx => h x (List.mem_cons_of_mem _ hx))]

theorem bbSuiteBody_no_none (env : Env) (t : String) (i : Nat) (k : Option String)
    (es : List CppcheckError) (h : ∀ e ∈ es, e.severity ≠ none ∧ e.message ≠ none) :
    treeHasNoneAttr (bitbucketSuiteBody env t i k es) = false := by
  show forestHasNoneAttr (es.map (bitbucketCase env k)) = false
  exact bbCaseForest_no_none env k es h

theorem bbPure_no_none (env : Env) (t : String) :
    ∀ (m : FindingsMap) (i : Nat),
      (∀ p ∈ m, ∀ e ∈ p.2, e.severity ≠ none ∧ e.message ≠ none) →
      forestHasNoneAttr (bitbucketSuitesPure env t i m) = false := by
  intro m
  induction m with
  | nil => intro i _; rfl
  | cons p rest ih =>
    intro i h
    obtain ⟨k, es⟩ := p
    have hp := h (k, es) (List.mem_cons_self _ _)
    simp [bitbucketSuitesPure, forestHasNoneAttr,
          bbSuiteBody_no_none env t i k es hp,
          ih (i + 1) (fun q hq => h q (List.mem_cons_of_mem _ hq))]

theorem except_error_map_ne_ok {ε α β : Type} (e : ε) (f : α → β) (y : β) :
    Except.map f (Except.error e) ≠ Except.ok y := by
  intro h
  simp [Except.map] at h

/-! ### Claims -/

/-- Claim C1, counterexample: on a findings mapping with one file key
holding two findings (N = 2 total findings, K = 1 file key), the standard
testsuite's `tests` and `errors` attributes are "1", not "2": they record
the number of distinct file keys, not the total finding count. -/
theorem claim_C1_counterexample :
    totalFindings mC1 = 2 ∧
    (generate_test_suite env0 mC1).attr "tests" ≠ some (some (toString (totalFindings mC1))) ∧
    (generate_test_suite env0 mC1).attr "errors" ≠ some (some (toString (totalFindings mC1))) ∧
    (generate_test_suite env0 mC1).attr "tests" = some (some "1") ∧
    (generate_test_suite env0 mC1).attr "errors" = some (some "1") := by
  refine ⟨rfl, ?_, ?_, rfl, rfl⟩ <;> decide

/-- Claim C1 as amended: the standard report's testsuite has `tests` and
`errors` attributes both equal to the number of distinct file keys K (which
is also the number of testcase children), not the total finding count. -/
theorem claim_C1_amended (env : Env) (m : FindingsMap) :
    (generate_test_suite env m).attr "tests" = some (some (toString m.length)) ∧
    (generate_test_suite env m).attr "errors" = some (some (toString m.length)) ∧
    (generate_test_suite env m).children.length = m.length := by
  refine ⟨rfl, rfl, ?_⟩
  simp [generate_test_suite, XTree.children]

/-- Claim C6: the standard build produces exactly K testcase elements (one
per file key) and the total number of nested error detail elements across
all testcases equals N, the total finding count. -/
theorem claim_C6_standard_counts (env : Env) (m : FindingsMap) :
    (generate_test_suite env m).children.length = m.length ∧
    ((generate_test_suite env m).children.map (fun c => c.children.length)).sum =
      totalFindings m ∧
    (generate_test_suite env m).children.map XTree.tag =
      List.replicate m.length "testcase" ∧
    (generate_test_suite env m).children.map (fun c => c.children.map XTree.tag) =
      m.map (fun p => List.replicate p.2.length "error") := by
  have hchild : ∀ p : Option String × List CppcheckError,
      (standardCase env p).children = p.2.map (standardErrorElem env) := fun p => rfl
  refine ⟨by simp [generate_test_suite, XTree.children], ?_, ?_, ?_⟩
  · show ((m.map (standardCase env)).map (fun c => c.children.length)).sum = totalFindings m
    rw [List.map_map]
    have h : ((fun c => c.children.length) ∘ standardCase env) =
        fun p : Option String × List CppcheckError => p.2.length :=
      funext fun p => by simp [Function.comp, hchild]
    rw [h]; rfl
  · show (m.map (standardCase env)).map XTree.tag = List.replicate m.length "testcase"
    rw [List.map_map]
    have h : (XTree.tag ∘ standardCase env) =
        fun _ : Option String × List CppcheckError => "testcase" := funext fun p => rfl
    rw [h, List.map_const']
  · show (m.map (standardCase env)).map (fun c => c.children.map XTree.tag) =
        m.map (fun p => List.replicate p.2.length "error")
    rw [List.map_map]
    have h : ((fun c => c.children.map XTree.tag) ∘ standardCase env) =
        fun p : Option String × List CppcheckError => List.replicate p.2.length "error" := by
      funext p
      rw [Function.comp_apply, hchild, List.map_map]
      have h2 : (XTree.tag ∘ standardErrorElem env) = fun _ : CppcheckError => "error" :=
        funext fun e => rfl
      rw [h2, List.map_const']
    rw [h]

/-- Claim C8: for the finding file="a.cpp", line=42, severity="warning",
message="X", the standard build emits a detail element with message
"42: (warning) X" and type "", while the Bitbucket build emits a detail
element with the raw message "X" and type "warning". -/
theorem claim_C8_round_trip (env : Env) :
    (generate_test_suite env mC8).children.map
        (fun c => c.children.map (fun d => (d.attr "message", d.attr "type"))) =
      [[(some (some "42: (warning) X"), some (some ""))]] ∧
    (generate_test_suite_bitbucket env mC8).map
        (fun t => t.children.map (fun s => s.children.map
          (fun c => c.children.map (fun d => (d.attr "message", d.attr "type"))))) =
      .ok [[[(some (some "X"), some (some "warning"))]]] :=
  ⟨rfl, rfl⟩

/-- Claim C10: a version-2 document whose finding's location element lacks
a `line` attribute makes `int(None)` raise TypeError, and a version-2
document lacking the `errors` container makes iteration of None raise
TypeError; TypeError is not among the driver's handled exception types, so
it escapes `main` instead of being reported as a handled diagnostic. -/
theorem claim_C10_typeerror_unhandled :
    parse_cppcheck (.doc doc10a) = .error (.typeError intNoneTypeMsg) ∧
    parse_cppcheck (.doc doc10b) = .error (.typeError iterNoneMsg) ∧
    handledExc (.typeError intNoneTypeMsg) = false ∧
    handledExc (.typeError iterNoneMsg) = false ∧
    Cppcheck.main env0 ⟨.doc doc10a, none, false⟩ = .error (.typeError intNoneTypeMsg) ∧
    Cppcheck.main env0 ⟨.doc doc10b, none, false⟩ = .error (.typeError iterNoneMsg) :=
  ⟨rfl, rfl, rfl, rfl, rfl, rfl⟩

/-- Claim C2, counterexample: under `env0`, whose clock returns a distinct
value at each read ("0" on the first read, "1" on the second), both suites
of a two-file Bitbucket report carry the same timestamp — the single value
of the clock read made before the loop — so the timestamp is one shared
value rather than a fresh clock read per suite. -/
theorem claim_C2_counterexample :
    (generate_test_suite_bitbucket env0 mC2).map
        (fun t => t.children.map (fun c => c.attr "timestamp")) =
      .ok [some (some (env0.clock 0)), some (some (env0.clock 0))] ∧
    env0.clock 0 ≠ env0.clock 1 :=
  ⟨rfl, by decide⟩

/-- Claim C2 as amended: in the Bitbucket variant the timestamp is read
once, before the suite loop, and shared by every emitted testsuite, while
the hostname is re-resolved independently for each suite (suite i carries
the i-th `gethostname()` read). -/
theorem claim_C2_amended (env : Env) (m : FindingsMap)
    (hk : ∀ p ∈ m, p.1 ≠ none) :
    (generate_test_suite_bitbucket env m).map
        (fun t => t.children.map (fun c => c.attr "timestamp")) =
      .ok (List.replicate m.length (some (some (env.clock 0)))) ∧
    (generate_test_suite_bitbucket env m).map
        (fun t => t.children.map (fun c => c.attr "hostname")) =
      .ok ((List.range m.length).map (fun j => some (some (env.host j)))) := by
  rw [generate_test_suite_bitbucket, bitbucketSuites_eq_pure env (env.clock 0) m 0 hk]
  constructor
  · show Except.ok ((bitbucketSuitesPure env (env.clock 0) 0 m).map
        (fun c => c.attr "timestamp")) = _
    rw [pure_timestamps env (env.clock 0) m 0]
  · show Except.ok ((bitbucketSuitesPure env (env.clock 0) 0 m).map
        (fun c => c.attr "hostname")) = _
    rw [pure_hostnames env (env.clock 0) m 0, List.range_eq_range']

/-- Claim C2, witness for the amended theorem at a concrete two-file map. -/
theorem claim_C2_witness :
    (∀ p ∈ mC2, p.1 ≠ none) ∧
    ((generate_test_suite_bitbucket env0 mC2).map
        (fun t => t.children.map (fun c => c.attr "timestamp")) =
      .ok (List.replicate mC2.length (some (some (env0.clock 0)))) ∧
    (generate_test_suite_bitbucket env0 mC2).map
        (fun t => t.children.map (fun c => c.attr "hostname")) =
      .ok ((List.range mC2.length).map (fun j => some (some (env0.host j))))) :=
  ⟨by decide, claim_C2_amended env0 mC2 (by decide)⟩

/-- Claim C3: a document whose root version attribute is "1" or absent
fails in `parse_cppcheck` with the unsupported-version ValueError; the
driver catches it and exits with the failure status, and no output tree is
written. -/
theorem claim_C3_unsupported_version (env : Env) (doc : CppcheckDoc) (ec : Option Int)
    (bb : Bool) (h : doc.version = none ∨ doc.version = some "1") :
    parse_cppcheck (.doc doc) = .error (.valueError unsupportedVersionMsg) ∧
    Cppcheck.main env ⟨.doc doc, ec, bb⟩ = .ok (ExitStatus.failure, none) := by
  obtain ⟨v, errs⟩ := doc
  rcases h with h | h
  · have hv : v = none := h
    subst hv
    exact ⟨rfl, rfl⟩
  · have hv : v = some "1" := h
    subst hv
    exact ⟨rfl, rfl⟩

/-- Claim C3, witness at the concrete document with version "1". -/
theorem claim_C3_witness :
    ((CppcheckDoc.mk (some "1") (some [])).version = none ∨
      (CppcheckDoc.mk (some "1") (some [])).version = some "1") ∧
    (parse_cppcheck (.doc ⟨some "1", some []⟩) =
        .error (.valueError unsupportedVersionMsg) ∧
      Cppcheck.main env0 ⟨.doc ⟨some "1", some []⟩, none, false⟩ =
        .ok (ExitStatus.failure, none)) :=
  ⟨Or.inr rfl, claim_C3_unsupported_version env0 ⟨some "1", some []⟩ none false (Or.inr rfl)⟩

/-- Claim C4, counterexample: two parsed documents with one finding each
on which the supplied error-exit-code 5 is NOT the exit status under
--bitbucket.  `doc4x` has a finding without a `severity` attribute: the
Bitbucket tree stores `type=None` and `tree.write` raises TypeError.
`doc4y` has a location without a `file` attribute: the finding parses
under the key None and `os.path.basename(None)` raises TypeError in the
builder.  Both TypeErrors escape `main` (the process exits 1 with a
traceback), so the exit status is not the supplied code. -/
theorem claim_C4_counterexample :
    parse_cppcheck (.doc doc4x) = .ok mC4x ∧
    0 < mC4x.length ∧
    Cppcheck.main env0 ⟨.doc doc4x, some 5, true⟩ = .error (.typeError serializeNoneMsg) ∧
    (Cppcheck.main env0 ⟨.doc doc4x, some 5, true⟩).map Prod.fst ≠ .ok 5 ∧
    parse_cppcheck (.doc doc4y) = .ok mC4y ∧
    0 < mC4y.length ∧
    Cppcheck.main env0 ⟨.doc doc4y, some 5, true⟩ = .error (.typeError basenameNoneMsg) ∧
    (Cppcheck.main env0 ⟨.doc doc4y, some 5, true⟩).map Prod.fst ≠ .ok 5 := by
  refine ⟨rfl, by decide, rfl, ?_, rfl, by decide, rfl, ?_⟩
  · rw [show Cppcheck.main env0 ⟨.doc doc4x, some 5, true⟩ =
        Except.error (PyExc.typeError serializeNoneMsg) from rfl]
    exact except_error_map_ne_ok _ _ _
  · rw [show Cppcheck.main env0 ⟨.doc doc4y, some 5, true⟩ =
        Except.error (PyExc.typeError basenameNoneMsg) from rfl]
    exact except_error_map_ne_ok _ _ _

/-- Claim C4 as amended: for a parsed non-empty findings mapping whose
keys are strings and whose findings all carry `severity` and `msg`
attributes (so that neither the Bitbucket builder nor serialization
raises), the exit status is the supplied error_exitcode N when one was
given, and the success status when the optional positional was omitted
(`main` returns `None`, and `sys.exit(None)` exits 0), despite findings
being present; outside these conditions the Bitbucket variant instead
crashes with an uncaught TypeError. -/
theorem claim_C4_amended (env : Env) (doc : CppcheckDoc) (bb : Bool) (N : Int)
    (m : FindingsMap) (hp : parse_cppcheck (.doc doc) = .ok m) (hm : 0 < m.length)
    (hk : ∀ p ∈ m, p.1 ≠ none)
    (hw : ∀ p ∈ m, ∀ e ∈ p.2, e.severity ≠ none ∧ e.message ≠ none) :
    (Cppcheck.main env ⟨.doc doc, some N, bb⟩).map Prod.fst = .ok N ∧
    (Cppcheck.main env ⟨.doc doc, none, bb⟩).map Prod.fst = .ok ExitStatus.success := by
  have hgb : generate_test_suite_bitbucket env m =
      .ok (.elem "testsuites" [] (bitbucketSuitesPure env (env.clock 0) 0 m)) := by
    rw [generate_test_suite_bitbucket, bitbucketSuites_eq_pure env (env.clock 0) m 0 hk]
    rfl
  have hwstd : writeTree (generate_test_suite env m) = .ok (generate_test_suite env m) := by
    simp [writeTree, std_suite_no_none]
  have hfor : forestHasNoneAttr (bitbucketSuitesPure env (env.clock 0) 0 m) = false :=
    bbPure_no_none env (env.clock 0) m 0 hw
  have hwbb : writeTree (.elem "testsuites" [] (bitbucketSuitesPure env (env.clock 0) 0 m)) =
      .ok (.elem "testsuites" [] (bitbucketSuitesPure env (env.clock 0) 0 m)) := by
    simp [writeTree, treeHasNoneAttr, hfor]
  cases bb with
  | false =>
    refine ⟨?_, ?_⟩ <;>
      simp [Cppcheck.main, hp, hm, hwstd, sysExitCode, Except.map, ExitStatus.success]
  | true =>
    refine ⟨?_, ?_⟩ <;>
      simp [Cppcheck.main, hp, hm, hgb, hwbb, sysExitCode, Except.map, ExitStatus.success]

/-- Claim C4, witness for the amended theorem: a one-finding document with
severity and message present, exit code 5 when supplied, success when
omitted. -/
theorem claim_C4_witness :
    (parse_cppcheck (.doc doc4) = .ok [(some "a.cpp", [errA])] ∧
      0 < [(some "a.cpp", [errA])].length ∧
      (∀ p ∈ [(some "a.cpp", [errA])], p.1 ≠ none) ∧
      (∀ p ∈ [(some "a.cpp", [errA])], ∀ e ∈ p.2, e.severity ≠ none ∧ e.message ≠ none)) ∧
    ((Cppcheck.main env0 ⟨.doc doc4, some 5, true⟩).map Prod.fst = .ok 5 ∧
      (Cppcheck.main env0 ⟨.doc doc4, none, true⟩).map Prod.fst = .ok ExitStatus.success) :=
  ⟨⟨rfl, by decide, by decide, by decide⟩,
    claim_C4_amended env0 doc4 true 5 [(some "a.cpp", [errA])] rfl (by decide) (by decide)
      (by decide)⟩

/-- Claim C5: with an empty findings mapping, `main` writes the synthetic
single-success suite — tests="1", errors="0", failures="0", exactly one
testcase named "Cppcheck success" — regardless of the bitbucket flag, and
exits with the success status. -/
theorem claim_C5_zero_findings (env : Env) (doc : CppcheckDoc) (ec : Option Int) (bb : Bool)
    (hp : parse_cppcheck (.doc doc) = .ok []) :
    Cppcheck.main env ⟨.doc doc, ec, bb⟩ =
      .ok (ExitStatus.success, some (generate_single_success_test_suite env)) ∧
    (generate_single_success_test_suite env).attr "tests" = some (some "1") ∧
    (generate_single_success_test_suite env).attr "errors" = some (some "0") ∧
    (generate_single_success_test_suite env).attr "failures" = some (some "0") ∧
    (generate_single_success_test_suite env).children.map
        (fun c => (c.tag, c.attr "name")) =
      [("testcase", some (some "Cppcheck success"))] := by
  refine ⟨?_, rfl, rfl, rfl, rfl⟩
  have hws : writeTree (generate_single_success_test_suite env) =
      .ok (generate_single_success_test_suite env) := rfl
  simp [Cppcheck.main, hp, hws]

/-- Claim C5, witness: an empty errors container with the bitbucket flag
set and an error exit code supplied. -/
theorem claim_C5_witness :
    parse_cppcheck (.doc doc5) = .ok [] ∧
    (Cppcheck.main env0 ⟨.doc doc5, some 7, true⟩ =
        .ok (ExitStatus.success, some (generate_single_success_test_suite env0)) ∧
      (generate_single_success_test_suite env0).attr "tests" = some (some "1") ∧
      (generate_single_success_test_suite env0).attr "errors" = some (some "0") ∧
      (generate_single_success_test_suite env0).attr "failures" = some (some "0") ∧
      (generate_single_success_test_suite env0).children.map
          (fun c => (c.tag, c.attr "name")) =
        [("testcase", some (some "Cppcheck success"))]) :=
  ⟨rfl, claim_C5_zero_findings env0 doc5 (some 7) true rfl⟩

/-- Claim C7: the Bitbucket build produces one testsuite per file key, each
suite's `tests` and `errors` attributes hold that file's finding count (so
both sums over all suites equal N), exactly N testcase elements in total,
each carrying exactly one nested error detail. -/
theorem claim_C7_bitbucket_counts (env : Env) (m : FindingsMap)
    (hk : ∀ p ∈ m, p.1 ≠ none) :
    (generate_test_suite_bitbucket env m).map (fun t => t.children.length) = .ok m.length ∧
    (generate_test_suite_bitbucket env m).map
        (fun t => t.children.map (fun c => c.attr "tests")) =
      .ok (m.map (fun p => some (some (toString p.2.length)))) ∧
    (generate_test_suite_bitbucket env m).map
        (fun t => t.children.map (fun c => c.attr "errors")) =
      .ok (m.map (fun p => some (some (toString p.2.length)))) ∧
    (m.map (fun p => p.2.length)).sum = totalFindings m ∧
    (generate_test_suite_bitbucket env m).map
        (fun t => (t.children.map (fun c => c.children.length)).sum) =
      .ok (totalFindings m) ∧
    (generate_test_suite_bitbucket env m).map
        (fun t => t.children.map (fun c => c.children.map (fun tc => tc.children.length))) =
      .ok (m.map (fun p => List.replicate p.2.length 1)) := by
  rw [generate_test_suite_bitbucket, bitbucketSuites_eq_pure env (env.clock 0) m 0 hk]
  refine ⟨?_, ?_, ?_, rfl, ?_, ?_⟩
  · show Except.ok (bitbucketSuitesPure env (env.clock 0) 0 m).length = _
    rw [pure_length env (env.clock 0) m 0]
  · show Except.ok ((bitbucketSuitesPure env (env.clock 0) 0 m).map
        (fun c => c.attr "tests")) = _
    rw [pure_tests env (env.clock 0) m 0]
  · show Except.ok ((bitbucketSuitesPure env (env.clock 0) 0 m).map
        (fun c => c.attr "errors")) = _
    rw [pure_errors env (env.clock 0) m 0]
  · show Except.ok (((bitbucketSuitesPure env (env.clock 0) 0 m).map
        (fun c => c.children.length)).sum) = _
    rw [pure_case_counts env (env.clock 0) m 0]
    rfl
  · show Except.ok ((bitbucketSuitesPure env (env.clock 0) 0 m).map
        (fun c => c.children.map (fun tc => tc.children.length))) = _
    rw [pure_detail_counts env (env.clock 0) m 0]

/-- Claim C7, witness at a concrete two-file, three-finding map. -/
theorem claim_C7_witness :
    (∀ p ∈ mW7, p.1 ≠ none) ∧
    ((generate_test_suite_bitbucket env0 mW7).map (fun t => t.children.length) =
        .ok mW7.length ∧
      (generate_test_suite_bitbucket env0 mW7).map
          (fun t => t.children.map (fun c => c.attr "tests")) =
        .ok (mW7.map (fun p => some (some (toString p.2.length)))) ∧
      (generate_test_suite_bitbucket env0 mW7).map
          (fun t => t.children.map (fun c => c.attr "errors")) =
        .ok (mW7.map (fun p => some (some (toString p.2.length)))) ∧
      (mW7.map (fun p => p.2.length)).sum = totalFindings mW7 ∧
      (generate_test_suite_bitbucket env0 mW7).map
          (fun t => (t.children.map (fun c => c.children.length)).sum) =
        .ok (totalFindings mW7) ∧
      (generate_test_suite_bitbucket env0 mW7).map
          (fun t => t.children.map (fun c => c.children.map (fun tc => tc.children.length))) =
        .ok (mW7.map (fun p => List.replicate p.2.length 1))) :=
  ⟨by decide, claim_C7_bitbucket_counts env0 mW7 (by decide)⟩

/-- Claim C9: a finding element with no location child is parsed with
file="" and line=0 and grouped under the empty-string key, and both output
variants label that key "Cppcheck error". -/
theorem claim_C9_no_location (env : Env) (e : ErrorElem) (es : List CppcheckError)
    (t : String) (j : Nat) (h : e.location = none) :
    parseErrorElem e = .ok ⟨some "", 0, e.msg, e.severity, e.id, e.verbose⟩ ∧
    parse_cppcheck (.doc ⟨some "2", some [e]⟩) =
      .ok [(some "", [⟨some "", 0, e.msg, e.severity, e.id, e.verbose⟩])] ∧
    (standardCase env (some "", es)).attr "name" = some (some "Cppcheck error") ∧
    (bitbucketSuiteBody env t j (some "") es).attr "name" = some (some "Cppcheck error") := by
  obtain ⟨loc, msg, sev, eid, vrb⟩ := e
  have hl : loc = none := h
  subst hl
  exact ⟨rfl, rfl, rfl, rfl⟩

/-- Claim C9, witness at a concrete location-free finding element. -/
theorem claim_C9_witness :
    (ErrorElem.mk none (some "m") (some "warning") (some "id1") none).location = none ∧
    (parseErrorElem ⟨none, some "m", some "warning", some "id1", none⟩ =
        .ok ⟨some "", 0, some "m", some "warning", some "id1", none⟩ ∧
      parse_cppcheck (.doc ⟨some "2", some [⟨none, some "m", some "warning", some "id1", none⟩]⟩) =
        .ok [(some "", [⟨some "", 0, some "m", some "warning", some "id1", none⟩])] ∧
      (standardCase env0 (some "", [])).attr "name" = some (some "Cppcheck error") ∧
      (bitbucketSuiteBody env0 "t" 0 (some "") []).attr "name" =
        some (some "Cppcheck error")) :=
  ⟨rfl, claim_C9_no_location env0 ⟨none, some "m", some "warning", some "id1", none⟩ [] "t" 0 rfl⟩
